import Mathlib

/-!
Shallow embedding of `src/script.js` (portfolio front-end script) and proofs
about its components: the testimonial carousel, swipe gesture handling,
carousel dots, the sidebar manager, the image modal, the contact form with
its email validation, and the tab manager.

JavaScript numbers that only ever hold integers (slide indices, pixel
coordinates) are modelled as `Int`; counts as `Nat`; DOM class and attribute
state as explicit record fields.
-/

namespace Portfolio

/-! ## TestimonialCarousel

`goToSlide(index)` from `script.js`:

```js
goToSlide(index) {
  if (index < 0) index = this.slides.length - 1;
  if (index >= this.slides.length) index = 0;
  ...
  state.currentTestimonial = index;
  this.updateDots();
  ...
}
```

The two `if` statements run sequentially on the mutable local `index`.
`n` is `this.slides.length`.
-/

/-- The index stored into `state.currentTestimonial` by `goToSlide`,
as a function of the slide count `n` and the requested index. -/
def goToSlide (n : Nat) (index : Int) : Int :=
  let index1 := if index < 0 then (n : Int) - 1 else index
  let index2 := if index1 ≥ (n : Int) then 0 else index1
  index2

/-- `next()` is `goToSlide(state.currentTestimonial + 1)`. -/
def next (n : Nat) (i : Int) : Int := goToSlide n (i + 1)

/-- `prev()` is `goToSlide(state.currentTestimonial - 1)`. -/
def prev (n : Nat) (i : Int) : Int := goToSlide n (i - 1)

/-- Clicking dot `j` runs `goToSlide(j)` (see `createDots`). -/
def dotClick (n : Nat) (j : Nat) : Int := goToSlide n (j : Int)

/-- The index formula asserted by the specification, `((k % N) + N) % N`,
with `%` read as the JavaScript remainder operator, which truncates toward
zero (`Int.tmod`). -/
def specIndex (n : Nat) (k : Int) : Int := ((Int.tmod k n) + n).tmod n

/-- For `-1 ≤ k`, `0 < n`: `Int.tmod k n` agrees with the spec formula's
building blocks; helper computing `tmod` of `-1`. -/
theorem tmod_neg_one (n : Nat) (h : 2 ≤ n) : Int.tmod (-1) (n : Int) = -1 := by
  show Int.tmod (Int.negSucc 0) (Int.ofNat n) = -1
  show -(Int.ofNat (Nat.succ 0 % n)) = -1
  rw [Nat.mod_eq_of_lt (by omega)]
  rfl

/-- On the range `-1 ≤ k ≤ n` (the only arguments produced inside the
script: `i ± 1` for `i ∈ [0, n)` and dot indices), `goToSlide` agrees with
the canonical nonnegative residue `k.emod n`. -/
theorem neg_one_emod (n : Nat) (hn : 2 ≤ n) : (-1 : Int) % (n : Int) = (n : Int) - 1 := by
  have e1 : ((n : Int) - 1) % (n : Int) = (n : Int) - 1 :=
    Int.emod_eq_of_lt (by omega) (by omega)
  have e2 : ((n : Int) - 1) = -1 + (n : Int) := by ring
  rw [e2] at e1
  rw [Int.add_emod_self] at e1
  rw [e1]
  ring

theorem goToSlide_eq_emod (n : Nat) (k : Int) (hn : 2 ≤ n)
    (h1 : -1 ≤ k) (h2 : k ≤ (n : Int)) : goToSlide n k = k % (n : Int) := by
  have hn' : (0 : Int) < (n : Int) := by exact_mod_cast (by omega : 0 < n)
  unfold goToSlide
  rcases lt_trichotomy k 0 with hk | hk | hk
  · have hk1 : k = -1 := by omega
    subst hk1
    simp only [if_pos (by omega : (-1 : Int) < 0)]
    rw [if_neg (by omega : ¬ ((n : Int) - 1 ≥ (n : Int)))]
    rw [neg_one_emod n hn]
  · subst hk
    simp only [if_neg (by omega : ¬ ((0 : Int) < 0))]
    rw [if_neg (by omega : ¬ ((0 : Int) ≥ (n : Int)))]
    rw [Int.zero_emod]
  · simp only [if_neg (by omega : ¬ (k < 0))]
    by_cases hge : k ≥ (n : Int)
    · have hkn : k = (n : Int) := by omega
      rw [if_pos hge, hkn, Int.emod_self]
    · rw [if_neg hge]
      exact (Int.emod_eq_of_lt (by omega) (by omega)).symm

/-- The spec formula `((k % n) + n) % n` (JavaScript truncating `%`) equals
the canonical residue `k.emod n` whenever `-1 ≤ k` and `2 ≤ n`. -/
theorem specIndex_eq_emod (n : Nat) (k : Int) (hn : 2 ≤ n) (h1 : -1 ≤ k) :
    specIndex n k = k % (n : Int) := by
  have hn' : (0 : Int) < (n : Int) := by exact_mod_cast (by omega : 0 < n)
  unfold specIndex
  rcases lt_trichotomy k 0 with hk | hk | hk
  · have hk1 : k = -1 := by omega
    subst hk1
    rw [tmod_neg_one n hn]
    rw [Int.tmod_eq_emod (by omega) (by omega)]
    rw [Int.add_emod_self]
  · subst hk
    rw [Int.zero_tmod, Int.zero_add, Int.tmod_eq_emod (by omega) (by omega)]
    rw [Int.emod_self, Int.zero_emod]
  · rw [@Int.tmod_eq_emod k (n : Int) (by omega) (by omega)]
    have hx : (0 : Int) ≤ k % (n : Int) := Int.emod_nonneg k (by omega)
    rw [Int.tmod_eq_emod (by omega) (by omega)]
    rw [Int.add_emod_self, Int.emod_emod_of_dvd k dvd_rfl]

/-- Range fact used throughout: the stored index always lands in `[0, n)`
for `n ≥ 1`, whatever argument `goToSlide` receives. -/
theorem goToSlide_range (n : Nat) (k : Int) (hn : 1 ≤ n) :
    0 ≤ goToSlide n k ∧ goToSlide n k < (n : Int) := by
  simp only [goToSlide]
  split_ifs <;> omega

/-! ## Swipe gesture support (`addSwipeSupport`)

```js
let startX = 0;
let currentX = 0;
const handleStart = (e) => { startX = ...pageX; ... };
const handleMove = (e) => { if (!startX) return; currentX = ...pageX; };
const handleEnd = () => {
  if (!startX) return;
  const diff = startX - currentX;
  const threshold = 50;
  if (Math.abs(diff) > threshold) {
    if (diff > 0) { this.next(); } else { this.prev(); }
  }
  startX = 0;
  currentX = 0;
  ...
};
```

`!startX` is JavaScript falsiness of the number `startX`, i.e. `startX = 0`.
The auto-advance timer start/stop calls in these handlers do not touch the
slide index and are not modelled. -/

/-- Tracked gesture coordinates (the local variables of `addSwipeSupport`). -/
structure SwipeState where
  startX : Int
  currentX : Int
deriving DecidableEq

/-- `handleStart`: records the pointer x coordinate. -/
def handleStart (x : Int) (s : SwipeState) : SwipeState := { s with startX := x }

/-- `handleMove`: records the current x coordinate unless `startX` is falsy. -/
def handleMove (x : Int) (s : SwipeState) : SwipeState :=
  if s.startX = 0 then s else { s with currentX := x }

/-- `handleEnd`: applies the 50px threshold and resets the tracked
coordinates; returns the new tracked state and the new slide index. -/
def handleEnd (n : Nat) (idx : Int) (s : SwipeState) : SwipeState × Int :=
  if s.startX = 0 then (s, idx)
  else
    let diff := s.startX - s.currentX
    let idx2 :=
      if 50 < diff.natAbs then (if 0 < diff then next n idx else prev n idx) else idx
    ({ startX := 0, currentX := 0 }, idx2)

/-- One complete gesture starting from the reset tracked state: a
`handleStart` at `x0` followed by any number of `handleMove`s. -/
def runGesture (x0 : Int) (moves : List Int) : SwipeState :=
  moves.foldl (fun s x => handleMove x s) (handleStart x0 { startX := 0, currentX := 0 })

theorem foldl_handleMove_startX (moves : List Int) (s : SwipeState) :
    (moves.foldl (fun s x => handleMove x s) s).startX = s.startX := by
  induction moves generalizing s with
  | nil => rfl
  | cons m ms ih =>
    rw [List.foldl_cons, ih]
    unfold handleMove
    split <;> rfl

theorem runGesture_startX (x0 : Int) (moves : List Int) :
    (runGesture x0 moves).startX = x0 := by
  rw [runGesture, foldl_handleMove_startX]
  rfl

theorem runGesture_of_zero (moves : List Int) :
    runGesture 0 moves = { startX := 0, currentX := 0 } := by
  rw [runGesture]
  have h0 : handleStart 0 { startX := 0, currentX := 0 } =
      ({ startX := 0, currentX := 0 } : SwipeState) := rfl
  rw [h0]
  induction moves with
  | nil => rfl
  | cons m ms ih =>
    rw [List.foldl_cons]
    have hm : handleMove m { startX := 0, currentX := 0 } =
        ({ startX := 0, currentX := 0 } : SwipeState) := rfl
    rw [hm]
    exact ih

/-! ## Carousel dots (`createDots` / `updateDots`)

```js
updateDots() {
  this.dots.forEach((dot, index) => {
    dot.classList.toggle('active', index === state.currentTestimonial);
    ...
  });
}
```

`createDots` creates one dot per slide, so the dot list has length `n`;
dot `index` carries the `active` class iff `index === state.currentTestimonial`. -/

/-- The `active`-class state of the `n` dots after `updateDots` runs with
stored index `current`. -/
def updateDots (n : Nat) (current : Int) : List Bool :=
  (List.range n).map (fun (i : Nat) => decide ((i : Int) = current))

theorem filter_range_eq_single (n m : Nat) (h : m < n) :
    (List.range n).filter (fun i => decide (i = m)) = [m] := by
  induction n with
  | zero => omega
  | succ n ih =>
    rw [List.range_succ, List.filter_append]
    by_cases hm : m = n
    · subst hm
      have hnil : (List.range m).filter (fun i => decide (i = m)) = [] := by
        rw [List.filter_eq_nil_iff]
        intro a ha
        have := List.mem_range.mp ha
        simp only [decide_eq_true_eq]
        omega
      rw [hnil]
      simp
    · have hlt : m < n := by omega
      rw [ih hlt]
      have hone : ([n].filter (fun i => decide (i = m))) = [] := by
        rw [show ([n] : List Nat) = n :: [] from rfl, List.filter_cons]
        rw [decide_eq_false (by omega : ¬ (n = m))]
        simp
      rw [hone, List.append_nil]

theorem count_map_range (n m : Nat) :
    ((List.range n).map (fun i => decide (i = m))).count true =
      if m < n then 1 else 0 := by
  induction n with
  | zero => simp
  | succ n ih =>
    rw [List.range_succ, List.map_append, List.count_append, ih]
    by_cases hm : m = n
    · subst hm
      rw [if_neg (by omega), if_pos (by omega)]
      simp
    · have h1 : ((List.map (fun i => decide (i = m)) [n]).count true) = 0 := by
        rw [List.map_cons, List.map_nil, decide_eq_false (by omega : ¬ (n = m))]
        simp
      rw [h1]
      split_ifs <;> omega

theorem updateDots_count (n : Nat) (c : Int) (h0 : 0 ≤ c) (h1 : c < (n : Int)) :
    (updateDots n c).count true = 1 := by
  have hc : c.toNat < n := by omega
  have hmap : updateDots n c = (List.range n).map (fun i => decide (i = c.toNat)) := by
    unfold updateDots
    apply List.map_congr_left
    intro i hi
    by_cases hic : (i : Int) = c
    · rw [decide_eq_true hic, decide_eq_true (by omega)]
    · rw [decide_eq_false hic, decide_eq_false (by omega)]
  rw [hmap, count_map_range, if_pos hc]

/-! ## SidebarManager

```js
toggle() {
  if (state.isMobile) {
    this.isOpen ? this.close() : this.open();
  } else {
    this.toggleDesktop();
  }
}
open() {
  if (!this.sidebar || !this.overlay) return;
  this.sidebar.classList.add('sidebar-expanded');
  this.overlay.classList.add('active');
  this.hamburger?.classList.add('active');
  document.body.style.overflow = 'hidden';
  this.isOpen = true;
  ...focus...
}
close() { ...removes the same classes, overflow = '', isOpen = false... }
toggleDesktop() {
  if (!this.sidebar) return;
  this.sidebar.classList.toggle('collapsed');
}
```
Focus placement has no effect on the open/closed state and is not modelled. -/

/-- DOM-visible sidebar state: element presence flags and the class /
style bits the manager mutates. -/
structure SidebarState where
  hasSidebar : Bool
  hasOverlay : Bool
  hasHamburger : Bool
  expanded : Bool
  collapsed : Bool
  overlayActive : Bool
  hamburgerActive : Bool
  scrollLocked : Bool
  isOpen : Bool
deriving DecidableEq

/-- `SidebarManager.open` (mobile overlay open). -/
def openMobile (s : SidebarState) : SidebarState :=
  if s.hasSidebar && s.hasOverlay then
    { s with expanded := true, overlayActive := true,
             hamburgerActive := if s.hasHamburger then true else s.hamburgerActive,
             scrollLocked := true, isOpen := true }
  else s

/-- `SidebarManager.close` (mobile overlay close). -/
def closeMobile (s : SidebarState) : SidebarState :=
  if s.hasSidebar && s.hasOverlay then
    { s with expanded := false, overlayActive := false,
             hamburgerActive := if s.hasHamburger then false else s.hamburgerActive,
             scrollLocked := false, isOpen := false }
  else s

/-- `SidebarManager.toggleDesktop`. -/
def toggleDesktop (s : SidebarState) : SidebarState :=
  if s.hasSidebar then { s with collapsed := !s.collapsed } else s

/-- `SidebarManager.toggle`, with the cached viewport flag `state.isMobile`
passed explicitly (it is read, never written, by `toggle`). -/
def toggle (isMobile : Bool) (s : SidebarState) : SidebarState :=
  if isMobile then (if s.isOpen then closeMobile s else openMobile s)
  else toggleDesktop s

/-! ## ImageModal

```js
open(button) {
  const imgSrc = button.getAttribute('data-image');
  const imgAlt = button.getAttribute('data-alt') || 'Portfolio Image';
  if (!imgSrc || !this.modalContent) return;
  ... loading placeholder, image load with onload/onerror ...
  this.modal?.classList.add('open');
  document.body.style.overflow = 'hidden';
  this.modalClose?.focus();
}
```
`getAttribute` yields `null` when the attribute is absent; `!imgSrc` is
also true for the empty string. The asynchronous image load outcome is the
explicit parameter `loadOk`. -/

/-- Contents of the modal's content region. `initial` stands for whatever
markup was there before `open` ran. -/
inductive ModalContent where
  | initial : ModalContent
  | loading : ModalContent
  | image (src alt : String) : ModalContent
  | loadFailed : ModalContent
deriving DecidableEq

/-- DOM-visible state touched by `ImageModal.open` / `close`. -/
structure ImageModalState where
  modalOpen : Bool
  content : ModalContent
  scrollLocked : Bool
  focusOnCloseBtn : Bool
deriving DecidableEq

/-- `ImageModal.open(button)`: `dataImage` / `dataAlt` are the button's
`data-image` / `data-alt` attributes (absent = `none`), `hasModalContent`
records whether `this.modalContent` exists, and `loadOk` is the outcome of
the asynchronous image load. -/
def openModal (dataImage : Option String) (dataAlt : Option String)
    (hasModalContent : Bool) (loadOk : Bool) (s : ImageModalState) : ImageModalState :=
  let imgAlt := dataAlt.getD "Portfolio Image"
  match dataImage with
  | none => s
  | some imgSrc =>
    if imgSrc = "" then s
    else if !hasModalContent then s
    else
      { modalOpen := true,
        content := if loadOk then ModalContent.image imgSrc imgAlt
                   else ModalContent.loadFailed,
        scrollLocked := true,
        focusOnCloseBtn := true }

/-! ## ContactForm: email validation

```js
isValidEmail(email) {
  const emailRegex = /^[^\s@]+@[^\s@]+\.[^\s@]+$/;
  return emailRegex.test(email);
}
```

The regex matches exactly the strings of shape `a ++ "@" ++ b ++ "." ++ c`
with `a`, `b`, `c` nonempty and free of whitespace and `@` (note `b` and
`c` may themselves contain further dots, since `.` is on the `[^\s@]`
alphabet). `isValidEmail` below decides that language by searching for the
positions `i` of the `@` and `j` of a dot: the string matches iff some
`i`, `j` give nonempty all-`[^\s@]` segments around them. -/

/-- ECMAScript `\s`: whitespace and line-terminator code points. -/
def isJsSpace (c : Char) : Bool :=
  decide (c.toNat = 9 ∨ c.toNat = 10 ∨ c.toNat = 11 ∨ c.toNat = 12 ∨
    c.toNat = 13 ∨ c.toNat = 32 ∨ c.toNat = 0xa0 ∨ c.toNat = 0x1680 ∨
    (0x2000 ≤ c.toNat ∧ c.toNat ≤ 0x200a) ∨ c.toNat = 0x2028 ∨
    c.toNat = 0x2029 ∨ c.toNat = 0x202f ∨ c.toNat = 0x205f ∨
    c.toNat = 0x3000 ∨ c.toNat = 0xfeff)

/-- The regex character class `[^\s@]`. -/
def isEmailChar (c : Char) : Bool := !(isJsSpace c) && !(c == '@')

/-- `ContactForm.isValidEmail`: whether `^[^\s@]+@[^\s@]+\.[^\s@]+$`
matches the whole string. `i` is the position of the `@`, `j` the position
of the separating dot. -/
def isValidEmail (s : String) : Bool :=
  let cs := s.toList
  let n := cs.length
  (List.range n).any (fun (i : Nat) =>
    (List.range n).any (fun (j : Nat) =>
      decide (1 ≤ i) && (cs[i]? == some '@') && decide (i + 2 ≤ j) &&
      (cs[j]? == some '.') && decide (j + 2 ≤ n) &&
      (cs.take i).all isEmailChar &&
      ((cs.drop (i + 1)).take (j - i - 1)).all isEmailChar &&
      (cs.drop (j + 1)).all isEmailChar))

/-- JavaScript `String.prototype.trim`: strips `\s`-class characters from
both ends. -/
def jsTrim (s : String) : String :=
  ⟨((s.toList.dropWhile isJsSpace).reverse.dropWhile isJsSpace).reverse⟩

/-! ## ContactForm: field validation and submission

```js
validateField(field) {
  const value = field.value.trim();
  let isValid = true;
  let message = '';
  switch (field.type) {
    case 'email':
      isValid = this.isValidEmail(value);
      ...
    default:
      if (field.required && !value) { isValid = false; ... }
  }
  this.setFieldValidity(field, isValid, message);
  return isValid;
}
```
The inline error elements and focus moves have no bearing on the validity
verdict or the submission flow and are not modelled; the toast and the
submit/reset control state are. -/

/-- The `field.type` dichotomy of the `switch`: `email` vs every other
type (the `default` branch). -/
inductive FieldType where
  | email : FieldType
  | other : FieldType
deriving DecidableEq

/-- One form input: its type, `required` flag, current value, and the
value `form.reset()` restores. -/
structure Field where
  ftype : FieldType
  required : Bool
  value : String
  defaultValue : String
deriving DecidableEq

/-- `ContactForm.validateField`: the returned validity verdict. -/
def validateField (f : Field) : Bool :=
  let value := jsTrim f.value
  match f.ftype with
  | FieldType.email => isValidEmail value
  | FieldType.other => !(f.required && (value == ""))

/-- Toast severity (`Toast.show`'s `type` argument). -/
inductive ToastType where
  | success : ToastType
  | error : ToastType
  | warning : ToastType
deriving DecidableEq

/-- Form-level DOM state touched by `handleSubmit` / `setFormState`. -/
structure FormState where
  fields : List Field
  submitDisabled : Bool
  resetDisabled : Bool
  submitLoading : Bool
  submitLabel : String
  toast : Option (String × ToastType)
deriving DecidableEq

/-- The submit button's busy label. -/
def sendingLabel : String := "<i class=\"fas fa-spinner fa-spin\"></i> Sending..."

/-- The submit button's idle label. -/
def idleLabel : String := "<i class=\"fa fa-paper-plane\"></i> Send Message"

/-- `ContactForm.setFormState`: `loading` disables both controls and shows
the busy label; anything else re-enables them and restores the idle label. -/
def setFormState (loading : Bool) (st : FormState) : FormState :=
  if loading then
    { st with submitDisabled := true, resetDisabled := true,
              submitLoading := true, submitLabel := sendingLabel }
  else
    { st with submitDisabled := false, resetDisabled := false,
              submitLoading := false, submitLabel := idleLabel }

/-- `form.reset()` on one field: the value reverts to its default. -/
def resetField (f : Field) : Field := { f with value := f.defaultValue }

/-- `ContactForm.handleSubmit` after `preventDefault`: validates every
field; on failure shows the error toast and aborts. Otherwise runs the
`try / catch / finally` around the simulated call, whose outcome
(`Math.random() > 0.2`) is the explicit parameter `success`. -/
def handleSubmit (success : Bool) (st : FormState) : FormState :=
  if st.fields.all validateField then
    let st1 := setFormState true st
    let st2 :=
      if success then
        { st1 with fields := st1.fields.map resetField,
                   toast := some ("Message sent successfully! I will get back to you soon.",
                                  ToastType.success) }
      else
        { st1 with toast := some ("Failed to send message. Please try again.",
                                  ToastType.error) }
    setFormState false st2
  else
    { st with toast := some ("Please fix the errors in the form", ToastType.error) }

/-! ## TabManager

```js
activateTab(activeLink, allLinks, allPanes, dataAttribute) {
  allLinks.forEach(tab => tab.classList.remove('active'));
  activeLink.classList.add('active');
  allPanes.forEach(pane => pane.classList.remove('active'));
  const targetId = activeLink.getAttribute(dataAttribute);
  const activePane = document.getElementById(targetId);
  if (activePane) {
    activePane.classList.add('active');
    activePane.setAttribute('aria-hidden', 'false');
    allPanes.forEach(pane => {
      if (pane !== activePane) pane.setAttribute('aria-hidden', 'true');
    });
  }
}
```
The clicked link is identified by its index in `allLinks`;
`document.getElementById` resolves to the first pane of the group whose
`id` equals the target (the panes are the document's elements carrying
those ids). -/

/-- One tab link: its `active` class and its `data-category` /
`data-subcategory` attribute (absent = `none`). -/
structure TabLink where
  active : Bool
  target : Option String
deriving DecidableEq

/-- One pane: its `id`, its `active` class, and its `aria-hidden`
attribute (absent = `none`). -/
structure Pane where
  id : String
  active : Bool
  ariaHidden : Option Bool
deriving DecidableEq

/-- Link update pass: every link's `active` class is removed, then the
clicked one's is added; `i` is the position of the head of the remaining
list. -/
def setActiveLinksAux (clicked : Nat) : Nat → List TabLink → List TabLink
  | _, [] => []
  | i, l :: ls =>
    { l with active := decide (i = clicked) } :: setActiveLinksAux clicked (i + 1) ls

/-- All links deactivated, then the clicked one activated. -/
def setActiveLinks (links : List TabLink) (clicked : Nat) : List TabLink :=
  setActiveLinksAux clicked 0 links

/-- The `if (activePane)` branch: the first pane with the target id gets
the `active` class and `aria-hidden="false"`; every other pane gets
`aria-hidden="true"`. Expects the panes already deactivated and a match to
exist. -/
def markFirstPane (tid : String) : List Pane → List Pane
  | [] => []
  | p :: ps =>
    if p.id == tid then
      { p with active := true, ariaHidden := some false } ::
        ps.map (fun q => { q with ariaHidden := some true })
    else
      { p with ariaHidden := some true } :: markFirstPane tid ps

/-- Pane update pass of `activateTab`. -/
def activatePanes (panes : List Pane) (target : Option String) : List Pane :=
  let ps := panes.map (fun p => { p with active := false })
  match target with
  | none => ps
  | some tid => if ps.any (fun p => p.id == tid) then markFirstPane tid ps else ps

/-- The clicked link's data attribute (`getAttribute` result). -/
def clickedTarget (links : List TabLink) (clicked : Nat) : Option String :=
  match links[clicked]? with
  | some l => l.target
  | none => none

/-- Whether any pane of the group matches the clicked link's target id. -/
def paneMatch (panes : List Pane) (t : Option String) : Bool :=
  match t with
  | none => false
  | some tid => panes.any (fun p => p.id == tid)

/-- `TabManager.activateTab`, returning the updated links and panes. -/
def activateTab (links : List TabLink) (clicked : Nat) (panes : List Pane) :
    List TabLink × List Pane :=
  (setActiveLinks links clicked, activatePanes panes (clickedTarget links clicked))

/-! ## Supporting lemmas for the tab manager and email matcher -/

theorem setActiveLinksAux_length (clicked i : Nat) (ls : List TabLink) :
    (setActiveLinksAux clicked i ls).length = ls.length := by
  induction ls generalizing i with
  | nil => rfl
  | cons l ls ih => simp [setActiveLinksAux, ih]

theorem setActiveLinksAux_countP (clicked : Nat) (ls : List TabLink) (i : Nat) :
    (setActiveLinksAux clicked i ls).countP (fun l => l.active) =
      if i ≤ clicked ∧ clicked < i + ls.length then 1 else 0 := by
  induction ls generalizing i with
  | nil =>
    simp only [setActiveLinksAux, List.countP_nil, List.length_nil]
    rw [if_neg (by omega)]
  | cons l ls ih =>
    have hstep : setActiveLinksAux clicked i (l :: ls) =
        { l with active := decide (i = clicked) } ::
          setActiveLinksAux clicked (i + 1) ls := rfl
    rw [hstep, List.countP_cons, ih (i + 1)]
    have hp : ({ l with active := decide (i = clicked) } : TabLink).active =
        decide (i = clicked) := rfl
    rw [hp]
    simp only [List.length_cons]
    have hift : (if (true : Bool) = true then (1 : Nat) else 0) = 1 := rfl
    have hiff : (if (false : Bool) = true then (1 : Nat) else 0) = 0 := rfl
    by_cases h : i = clicked
    · rw [decide_eq_true h, hift]
      split_ifs <;> omega
    · rw [decide_eq_false h, hiff]
      split_ifs <;> omega

theorem setActiveLinksAux_get (clicked : Nat) (ls : List TabLink) (i j : Nat)
    (hj : j < (setActiveLinksAux clicked i ls).length) :
    ((setActiveLinksAux clicked i ls).get ⟨j, hj⟩).active = decide (i + j = clicked) := by
  induction ls generalizing i j with
  | nil => simp [setActiveLinksAux] at hj
  | cons l ls ih =>
    cases j with
    | zero =>
      show ({ l with active := decide (i = clicked) } : TabLink).active = _
      simp
    | succ j =>
      have hj2 : j < (setActiveLinksAux clicked (i + 1) ls).length := by
        have := hj
        simp only [setActiveLinksAux, List.length_cons] at this
        simp only [setActiveLinksAux_length] at this ⊢
        omega
      have hcons : (setActiveLinksAux clicked i (l :: ls)).get ⟨j + 1, hj⟩ =
          (setActiveLinksAux clicked (i + 1) ls).get ⟨j, hj2⟩ := rfl
      rw [hcons, ih (i + 1) j hj2]
      exact decide_eq_decide.mpr (by omega)

theorem countP_active_map_aria (ps : List Pane)
    (h : ∀ p ∈ ps, p.active = false) :
    (ps.map (fun q => { q with ariaHidden := some true })).countP
      (fun p => p.active) = 0 := by
  rw [List.countP_eq_zero]
  intro p hp
  rw [List.mem_map] at hp
  obtain ⟨q, hq, rfl⟩ := hp
  simp [h q hq]

theorem markFirstPane_countP (tid : String) (ps : List Pane)
    (h : ∀ p ∈ ps, p.active = false)
    (hm : ps.any (fun p => p.id == tid) = true) :
    (markFirstPane tid ps).countP (fun p => p.active) = 1 := by
  induction ps with
  | nil => simp at hm
  | cons p ps ih =>
    have hcons : markFirstPane tid (p :: ps) =
        if p.id == tid then
          { p with active := true, ariaHidden := some false } ::
            ps.map (fun q => { q with ariaHidden := some true })
        else { p with ariaHidden := some true } :: markFirstPane tid ps := rfl
    by_cases hp : (p.id == tid) = true
    · rw [hcons, if_pos hp, List.countP_cons,
        countP_active_map_aria ps (fun q hq => h q (List.mem_cons_of_mem p hq))]
      simp
    · rw [hcons, if_neg hp, List.countP_cons]
      have hhead : ({ p with ariaHidden := some true } : Pane).active = false := by
        show p.active = false
        exact h p (List.mem_cons_self p ps)
      rw [hhead]
      have hm2 : ps.any (fun p => p.id == tid) = true := by
        rw [List.any_cons] at hm
        cases hpq : (p.id == tid) with
        | false => rw [hpq] at hm; simpa using hm
        | true => exact absurd hpq hp
      rw [ih (fun q hq => h q (List.mem_cons_of_mem p hq)) hm2]
      rfl

theorem activatePanes_countP (panes : List Pane) (t : Option String) :
    (activatePanes panes t).countP (fun p => p.active) =
      if paneMatch panes t then 1 else 0 := by
  have hall : ∀ p ∈ panes.map (fun p => ({ p with active := false } : Pane)),
      p.active = false := by
    intro p hp
    rw [List.mem_map] at hp
    obtain ⟨q, _, rfl⟩ := hp
    rfl
  have hzero : (panes.map (fun p => ({ p with active := false } : Pane))).countP
      (fun p => p.active) = 0 := by
    rw [List.countP_eq_zero]
    intro p hp
    simp [hall p hp]
  cases t with
  | none =>
    show (panes.map (fun p => ({ p with active := false } : Pane))).countP _ = _
    rw [hzero]
    rfl
  | some tid =>
    have hany : ((panes.map (fun p => ({ p with active := false } : Pane))).any
        (fun p => p.id == tid)) = panes.any (fun p => p.id == tid) := by
      rw [List.any_map]
      rfl
    have hup : activatePanes panes (some tid) =
        if (panes.map (fun p => ({ p with active := false } : Pane))).any
            (fun p => p.id == tid) then
          markFirstPane tid (panes.map (fun p => ({ p with active := false } : Pane)))
        else panes.map (fun p => ({ p with active := false } : Pane)) := rfl
    have hpm : paneMatch panes (some tid) = panes.any (fun p => p.id == tid) := rfl
    by_cases hm : panes.any (fun p => p.id == tid) = true
    · rw [hup, hany, if_pos hm,
        markFirstPane_countP tid _ hall (by rw [hany]; exact hm), hpm, hm]
      rfl
    · rw [hup, hany, if_neg hm, hzero, hpm, if_neg hm]

/-- Inversion for the matcher: a successful match pins a `@` at some
position `i` and a `.` at some later position `j`. -/
theorem isValidEmail_exists (s : String) (h : isValidEmail s = true) :
    ∃ i j : Nat, i < j ∧ j < s.toList.length ∧
      s.toList[i]? = some '@' ∧ s.toList[j]? = some '.' := by
  simp only [isValidEmail, List.any_eq_true, List.mem_range] at h
  obtain ⟨i, hi, j, hj, h⟩ := h
  simp only [Bool.and_eq_true] at h
  obtain ⟨⟨⟨⟨⟨⟨⟨h1, h2⟩, h3⟩, h4⟩, h5⟩, h6⟩, h7⟩, h8⟩ := h
  have hij : i + 2 ≤ j := of_decide_eq_true h3
  refine ⟨i, j, by omega, hj, ?_, ?_⟩
  · exact eq_of_beq h2
  · exact eq_of_beq h4

/-! ## Example data used by witnesses -/

/-- Example form whose fields all validate (used by the C3 witness). -/
def sampleForm : FormState :=
  { fields := [{ ftype := FieldType.email, required := true,
                 value := "user@example.com", defaultValue := "" },
               { ftype := FieldType.other, required := true,
                 value := "hello", defaultValue := "" }],
    submitDisabled := false, resetDisabled := false, submitLoading := false,
    submitLabel := "<i class=\"fa fa-paper-plane\"></i> Send Message",
    toast := none }

/-- Example non-required email field whose trimmed value is empty (C10). -/
def sampleEmptyEmail : Field :=
  { ftype := FieldType.email, required := false, value := "   ", defaultValue := "" }

/-- Example form containing `sampleEmptyEmail` (C10 witness). -/
def sampleBadForm : FormState :=
  { fields := [sampleEmptyEmail],
    submitDisabled := false, resetDisabled := false, submitLoading := false,
    submitLabel := "<i class=\"fa fa-paper-plane\"></i> Send Message",
    toast := none }

/-- Example tab links (C5 witness). -/
def sampleLinks : List TabLink :=
  [{ active := false, target := some "web" },
   { active := true, target := some "branding" }]

/-- Example panes (C5 witness). -/
def samplePanes : List Pane :=
  [{ id := "web", active := false, ariaHidden := none },
   { id := "branding", active := true, ariaHidden := none }]

/-! ## The claims -/

/-- Claim C1 as stated is false on the code: with slide count 3, `goToSlide(5)`
stores index 0 (the code clamps out-of-range indices to `0` / `N-1`), while
the spec formula `((5 % 3) + 3) % 3` yields 2. -/
theorem C1_counterexample :
    goToSlide 3 5 = 0 ∧ specIndex 3 5 = 2 ∧ goToSlide 3 5 ≠ specIndex 3 5 :=
  ⟨by decide, by decide, by decide⟩

/-- Claim C1, amended: for every slide count `N ≥ 2` and every requested
index `k` with `-1 ≤ k ≤ N` (the full range of arguments the script itself
ever passes: `i ± 1` for a stored `i ∈ [0, N)` and dot indices), calling
`goToSlide(k)` sets the effective current slide index to
`((k % N) + N) % N`. -/
theorem C1_goToSlide_wrap (n : Nat) (k : Int) (hn : 2 ≤ n)
    (h1 : -1 ≤ k) (h2 : k ≤ (n : Int)) : goToSlide n k = specIndex n k := by
  rw [goToSlide_eq_emod n k hn h1 h2, specIndex_eq_emod n k hn h1]

/-- Witness for C1 (amended) at `N = 3`, `k = -1`. -/
theorem C1_goToSlide_wrap_witness :
    goToSlide 3 (-1) = specIndex 3 (-1) ∧ goToSlide 3 (-1) = 2 :=
  ⟨C1_goToSlide_wrap 3 (-1) (by decide) (by decide) (by decide), by decide⟩

/-- Claim C2: for every swipe/drag gesture on the carousel track with
tracked horizontal displacement `Δ = startX - currentX` on release: if
`|Δ| ≤ 50` the current slide index does not change; if `Δ > 50` the index
advances by exactly one step (`next`); if `Δ < -50` it goes back by exactly
one step (`prev`); in both threshold-crossing cases the index changes. -/
theorem C2_swipe_threshold (n : Nat) (idx x0 : Int) (moves : List Int)
    (hn : 2 ≤ n) (h0 : 0 ≤ idx) (h1 : idx < (n : Int)) :
    (((runGesture x0 moves).startX - (runGesture x0 moves).currentX).natAbs ≤ 50 →
      (handleEnd n idx (runGesture x0 moves)).2 = idx) ∧
    (50 < (runGesture x0 moves).startX - (runGesture x0 moves).currentX →
      (handleEnd n idx (runGesture x0 moves)).2 = (idx + 1) % (n : Int) ∧
      (handleEnd n idx (runGesture x0 moves)).2 ≠ idx) ∧
    ((runGesture x0 moves).startX - (runGesture x0 moves).currentX < -50 →
      (handleEnd n idx (runGesture x0 moves)).2 = (idx - 1) % (n : Int) ∧
      (handleEnd n idx (runGesture x0 moves)).2 ≠ idx) := by
  have hnext_ne : (idx + 1) % (n : Int) ≠ idx := by
    by_cases h : idx + 1 < (n : Int)
    · rw [Int.emod_eq_of_lt (by omega) h]
      omega
    · rw [show idx + 1 = (n : Int) from by omega, Int.emod_self]
      omega
  have hprev_ne : (idx - 1) % (n : Int) ≠ idx := by
    by_cases h : 0 < idx
    · rw [Int.emod_eq_of_lt (by omega) (by omega)]
      omega
    · rw [show idx - 1 = (-1 : Int) from by omega, neg_one_emod n hn]
      omega
  have hnext_eq : next n idx = (idx + 1) % (n : Int) :=
    goToSlide_eq_emod n (idx + 1) hn (by omega) (by omega)
  have hprev_eq : prev n idx = (idx - 1) % (n : Int) :=
    goToSlide_eq_emod n (idx - 1) hn (by omega) (by omega)
  by_cases hx : x0 = 0
  · subst hx
    rw [runGesture_of_zero]
    have he : handleEnd n idx { startX := 0, currentX := 0 } =
        ({ startX := 0, currentX := 0 }, idx) := rfl
    rw [he]
    exact ⟨fun _ => rfl, fun hc => absurd hc (by decide), fun hc => absurd hc (by decide)⟩
  · have hsx : (runGesture x0 moves).startX = x0 := runGesture_startX x0 moves
    have he2 : (handleEnd n idx (runGesture x0 moves)).2 =
        if 50 < ((runGesture x0 moves).startX - (runGesture x0 moves).currentX).natAbs then
          (if 0 < (runGesture x0 moves).startX - (runGesture x0 moves).currentX then
            next n idx else prev n idx)
        else idx := by
      unfold handleEnd
      rw [if_neg (by rw [hsx]; exact hx)]
    rw [he2]
    refine ⟨?_, ?_, ?_⟩
    · intro hle
      rw [if_neg (by omega)]
    · intro hgt
      rw [if_pos (by omega), if_pos (by omega)]
      exact ⟨hnext_eq, by rw [hnext_eq]; exact hnext_ne⟩
    · intro hlt
      rw [if_pos (by omega), if_neg (by omega)]
      exact ⟨hprev_eq, by rw [hprev_eq]; exact hprev_ne⟩

/-- Witness for C2: 3 slides, index 0, press at x=100, move to x=30
(`Δ = 70 > 50`): the index advances by one. -/
theorem C2_swipe_threshold_witness :
    (handleEnd 3 0 (runGesture 100 [30])).2 = (0 + 1) % (3 : Int) ∧
    (handleEnd 3 0 (runGesture 100 [30])).2 ≠ 0 :=
  (C2_swipe_threshold 3 0 100 [30] (by decide) (by decide) (by decide)).2.1 (by decide)

/-- Claim C3: for every submission of the contact form in which all fields
validate, exactly one of two outcomes occurs: on success the form is reset
and the success toast shown; on failure the field values are unchanged and
the error toast shown; in both outcomes the submit and reset controls end
up re-enabled with the idle label restored. -/
theorem C3_submit_outcomes (st : FormState) (success : Bool)
    (hv : st.fields.all validateField = true) :
    ((handleSubmit true st).fields = st.fields.map resetField ∧
      (handleSubmit true st).toast =
        some ("Message sent successfully! I will get back to you soon.",
              ToastType.success)) ∧
    ((handleSubmit false st).fields = st.fields ∧
      (handleSubmit false st).toast =
        some ("Failed to send message. Please try again.", ToastType.error)) ∧
    ((handleSubmit success st).submitDisabled = false ∧
      (handleSubmit success st).resetDisabled = false ∧
      (handleSubmit success st).submitLoading = false ∧
      (handleSubmit success st).submitLabel = idleLabel) := by
  refine ⟨?_, ?_, ?_⟩
  · simp [handleSubmit, setFormState, hv]
  · simp [handleSubmit, setFormState, hv]
  · cases success <;> simp [handleSubmit, setFormState, hv]

/-- Witness for C3 on a concrete valid form, success branch. -/
theorem C3_submit_outcomes_witness :
    (handleSubmit true sampleForm).fields = sampleForm.fields.map resetField ∧
    (handleSubmit true sampleForm).toast =
      some ("Message sent successfully! I will get back to you soon.",
            ToastType.success) :=
  (C3_submit_outcomes sampleForm true (by decide)).1

/-- Claim C4: a string with no `@`, or with no `.` at any position after an
`@`, always fails email validation; `user@example.com` always passes. -/
theorem C4_email_validation :
    (∀ s : String, '@' ∉ s.toList → isValidEmail s = false) ∧
    (∀ s : String,
      (∀ j, j < s.toList.length → ∀ i, i < j →
        s.toList[i]? = some '@' → s.toList[j]? ≠ some '.') →
      isValidEmail s = false) ∧
    isValidEmail "user@example.com" = true := by
  refine ⟨?_, ?_, by decide⟩
  · intro s hs
    cases hv : isValidEmail s with
    | false => rfl
    | true =>
      exfalso
      obtain ⟨i, j, hij, hjlen, ha, hd⟩ := isValidEmail_exists s hv
      exact hs (List.mem_iff_getElem?.mpr ⟨i, ha⟩)
  · intro s hnd
    cases hv : isValidEmail s with
    | false => rfl
    | true =>
      exfalso
      obtain ⟨i, j, hij, hjlen, ha, hd⟩ := isValidEmail_exists s hv
      exact hnd j hjlen i hij ha hd

/-- Witness for C4 on concrete strings. -/
theorem C4_email_validation_witness :
    isValidEmail "userexample.com" = false ∧
    isValidEmail "user@examplecom" = false ∧
    isValidEmail "user@example.com" = true :=
  ⟨C4_email_validation.1 "userexample.com" (by decide),
   C4_email_validation.2.1 "user@examplecom" (by decide),
   C4_email_validation.2.2⟩

/-- Claim C5: after every `activateTab` call on a tab group, exactly one
link carries the active marker (the clicked one: link `j` is active iff
`j` is the clicked index), and the number of active panes is one when some
pane's id matches the clicked link's data attribute, zero otherwise. -/
theorem C5_activateTab_unique_active (links : List TabLink) (clicked : Nat)
    (panes : List Pane) (hc : clicked < links.length) :
    ((activateTab links clicked panes).1.countP (fun l => l.active) = 1) ∧
    (∀ (j : Nat) (hj : j < (activateTab links clicked panes).1.length),
      ((activateTab links clicked panes).1.get ⟨j, hj⟩).active = decide (j = clicked)) ∧
    ((activateTab links clicked panes).2.countP (fun p => p.active) =
      if paneMatch panes (clickedTarget links clicked) then 1 else 0) := by
  refine ⟨?_, ?_, ?_⟩
  · show (setActiveLinksAux clicked 0 links).countP (fun l => l.active) = 1
    rw [setActiveLinksAux_countP]
    rw [if_pos (by omega)]
  · intro j hj
    have hj0 : j < (setActiveLinksAux clicked 0 links).length := hj
    show ((setActiveLinksAux clicked 0 links).get ⟨j, hj0⟩).active = decide (j = clicked)
    rw [setActiveLinksAux_get]
    exact decide_eq_decide.mpr (by omega)
  · exact activatePanes_countP panes (clickedTarget links clicked)

/-- Witness for C5 on a concrete two-link, two-pane group. -/
theorem C5_activateTab_unique_active_witness :
    (activateTab sampleLinks 0 samplePanes).1.countP (fun l => l.active) = 1 ∧
    (activateTab sampleLinks 0 samplePanes).2.countP (fun p => p.active) =
      if paneMatch samplePanes (clickedTarget sampleLinks 0) then 1 else 0 := by
  have h := C5_activateTab_unique_active sampleLinks 0 samplePanes (by decide)
  exact ⟨h.1, h.2.2⟩

/-- Claim C6: after every carousel navigation action — `goToSlide(k)`, and
with it `next` = `goToSlide(i+1)`, `prev` = `goToSlide(i-1)` and a dot
click = `goToSlide(j)`, which are instances of the quantifier over `k` —
exactly one dot carries the active class, and dot `i` is active exactly
when `i` equals the stored current index. -/
theorem C6_dots_active (n : Nat) (k : Int) (hn : 2 ≤ n) :
    (updateDots n (goToSlide n k)).count true = 1 ∧
    ∀ (i : Nat) (hi : i < (updateDots n (goToSlide n k)).length),
      ((updateDots n (goToSlide n k)).get ⟨i, hi⟩ = true ↔ (i : Int) = goToSlide n k) := by
  have hr := goToSlide_range n k (by omega)
  refine ⟨updateDots_count n _ hr.1 hr.2, ?_⟩
  intro i hi
  simp [updateDots]

/-- Witness for C6: the spec's own example — three testimonials at index 0,
`prev()` moves to index 2 and the third dot becomes active. -/
theorem C6_dots_active_witness :
    (updateDots 3 (goToSlide 3 (-1))).count true = 1 ∧ goToSlide 3 (-1) = 2 :=
  ⟨(C6_dots_active 3 (-1) (by decide)).1, by decide⟩

/-- Claim C7: for every starting sidebar state and fixed viewport class,
applying `toggle` twice returns the sidebar to its original open/closed
state (`isOpen`) and collapsed state (`collapsed` class). -/
theorem C7_toggle_twice (m : Bool) (s : SidebarState) :
    (toggle m (toggle m s)).isOpen = s.isOpen ∧
    (toggle m (toggle m s)).collapsed = s.collapsed := by
  cases m with
  | false =>
    cases hsb : s.hasSidebar with
    | false => simp [toggle, toggleDesktop, hsb]
    | true => simp [toggle, toggleDesktop, hsb]
  | true =>
    cases hsb : s.hasSidebar with
    | false =>
      cases ho : s.isOpen <;> simp [toggle, openMobile, closeMobile, hsb, ho]
    | true =>
      cases hov : s.hasOverlay with
      | false =>
        cases ho : s.isOpen <;> simp [toggle, openMobile, closeMobile, hsb, hov, ho]
      | true =>
        cases ho : s.isOpen <;> simp [toggle, openMobile, closeMobile, hsb, hov, ho]

/-- Claim C8: `ImageModal.open` with a trigger button that has no
`data-image` attribute leaves the modal state entirely unchanged: not
opened, content untouched, scroll not locked, focus not moved. -/
theorem C8_modal_missing_source_noop (dataAlt : Option String)
    (hasContent loadOk : Bool) (s : ImageModalState) :
    openModal none dataAlt hasContent loadOk s = s := rfl

/-- Claim C9: for every slide count `N ≥ 1` and every integer argument, the
index stored by `goToSlide` lies in `[0, N)`; `next`, `prev` and dot clicks
are `goToSlide` calls and so preserve the invariant as well. -/
theorem C9_index_range_invariant (n : Nat) (k : Int) (j : Nat) (hn : 1 ≤ n) :
    (0 ≤ goToSlide n k ∧ goToSlide n k < (n : Int)) ∧
    (0 ≤ next n k ∧ next n k < (n : Int)) ∧
    (0 ≤ prev n k ∧ prev n k < (n : Int)) ∧
    (0 ≤ dotClick n j ∧ dotClick n j < (n : Int)) :=
  ⟨goToSlide_range n k hn, goToSlide_range n (k + 1) hn,
   goToSlide_range n (k - 1) hn, goToSlide_range n (j : Int) hn⟩

/-- Witness for C9 at `N = 4`, `k = -17`. -/
theorem C9_index_range_invariant_witness :
    0 ≤ goToSlide 4 (-17) ∧ goToSlide 4 (-17) < (4 : Int) :=
  (C9_index_range_invariant 4 (-17) 0 (by decide)).1

/-- Claim C10: an email field whose trimmed value is empty is marked
invalid by `validateField` (the email pattern applies regardless of the
`required` flag), and any form containing such a field has its submission
blocked: `handleSubmit` only shows the validation-error toast and changes
nothing else. -/
theorem C10_email_empty_blocks_submit (st : FormState) (f : Field)
    (hm : f ∈ st.fields) (ht : f.ftype = FieldType.email)
    (he : jsTrim f.value = "") :
    validateField f = false ∧
    ∀ success, handleSubmit success st =
      { st with toast := some ("Please fix the errors in the form", ToastType.error) } := by
  have hvf : validateField f = false := by
    simp only [validateField, ht, he]
    rfl
  refine ⟨hvf, fun success => ?_⟩
  have hall : st.fields.all validateField = false := by
    cases hq : st.fields.all validateField with
    | false => rfl
    | true =>
      have hft := List.all_eq_true.mp hq f hm
      rw [hvf] at hft
      exact absurd hft (by decide)
  simp [handleSubmit, hall]

/-- Witness for C10 on a concrete non-required email field of blanks. -/
theorem C10_email_empty_blocks_submit_witness :
    validateField sampleEmptyEmail = false ∧
    handleSubmit true sampleBadForm =
      { sampleBadForm with
          toast := some ("Please fix the errors in the form", ToastType.error) } := by
  have h := C10_email_empty_blocks_submit sampleBadForm sampleEmptyEmail
    (by decide) (by decide) (by decide)
  exact ⟨h.1, h.2 true⟩

end Portfolio
